/-
Verification of the passphrase-py `Passphrase` class (src/passphrase/passphrase.py)
against its natural-language specification.

The Python class is shallowly embedded: Python values flowing into setters are
modelled by the inductive `PyVal` (Python's `bool` is a subtype of `int`, which
`PyVal.isinstance_int` reflects), the object's attributes by the structure
`Passphrase.State`, and every mutating method by a function
`State → ... → State × Except Err α` whose returned state is the object's state
at the moment the method returns or raises (so partial mutation before a raise
is observable).  Randomness and file I/O are inputs: each random draw and each
file's content is a parameter of the embedded method.

Collaborator modules of the repository (`calc`, `secrets`, `settings`, `aux`,
`wordlist`) are not part of the provided source; the few members the embedded
code needs are modelled from the specification and marked as such.
-/
import Mathlib

/-- A primitive Python value: an element of a list the source inspects
(wordlist entries, generated result elements, arguments to `entropy_bits`).
`float` is modelled as a rational. -/
inductive PyPrim where
  | PNone : PyPrim
  | PBool : Bool → PyPrim
  | PInt : Int → PyPrim
  | PFloat : ℚ → PyPrim
  | PStr : String → PyPrim
deriving DecidableEq

/-- A Python value, as far as the embedded code inspects values:
`None`, `bool`, `int`, `float` (modelled as a rational), `str`, and
`list`/`tuple` (both modelled as `VList`; every type check in the source
treats `list` and `tuple` identically).  The source only ever inspects
primitive elements inside lists, so list elements are `PyPrim`. -/
inductive PyVal where
  | VNone : PyVal
  | VBool : Bool → PyVal
  | VInt : Int → PyVal
  | VFloat : ℚ → PyVal
  | VStr : String → PyVal
  | VList : List PyPrim → PyVal
deriving DecidableEq

/-- The exceptions the embedded code can raise. -/
inductive Err where
  | typeError : String → Err
  | valueError : String → Err
  | fileNotFoundError : String → Err
  | indexError : Err
  | attributeError : Err
deriving DecidableEq

/-- The spec groups `TypeError` and `ValueError` as the `InvalidInput` class. -/
def Err.isInvalidInput : Err → Bool
  | .typeError _ => true
  | .valueError _ => true
  | _ => false

deriving instance DecidableEq for Except

/-- Whether an `Except` result is a raised exception. -/
def isErr {α : Type} : Except Err α → Bool
  | .error _ => true
  | .ok _ => false

/-- Python `s.lower()`: lowercase each character. -/
def str_lower (s : String) : String := String.mk (s.data.map Char.toLower)

/-- Python `s.upper()`: uppercase each character. -/
def str_upper (s : String) : String := String.mk (s.data.map Char.toUpper)

/-- Python `isinstance(v, (int, float))` for a list element. -/
def PyPrim.isinstance_num : PyPrim → Bool
  | .PInt _ => true
  | .PBool _ => true
  | .PFloat _ => true
  | _ => false

/-- The numeric value of a `PyPrim` known to be an `int` or `float` instance. -/
def PyPrim.toRat : PyPrim → ℚ
  | .PInt n => (n : ℚ)
  | .PBool b => if b then 1 else 0
  | .PFloat q => q
  | _ => 0

/-- Python `str(v)` on a list element, as used by `__str__`.  Generated
results only ever hold strings and ints; the other renderings stand in for
CPython's and never decide a claim. -/
def PyPrim.render : PyPrim → String
  | .PStr s => s
  | .PInt n => toString n
  | .PBool b => if b then "True" else "False"
  | .PFloat q => toString q
  | .PNone => "None"

/-- Python `v.lower()` on a list element: succeeds only on strings, any
other element raises `AttributeError`. -/
def PyPrim.lower : PyPrim → Except Err String
  | .PStr s => .ok (str_lower s)
  | _ => .error .attributeError

/-- Python `isinstance(v, int)`; `bool` is a subclass of `int` in Python. -/
def PyVal.isinstance_int : PyVal → Bool
  | .VInt _ => true
  | .VBool _ => true
  | _ => false

/-- Python `isinstance(v, (int, float))`. -/
def PyVal.isinstance_num : PyVal → Bool
  | .VInt _ => true
  | .VBool _ => true
  | .VFloat _ => true
  | _ => false

/-- Python `isinstance(v, str)`. -/
def PyVal.isinstance_str : PyVal → Bool
  | .VStr _ => true
  | _ => false

/-- Python `isinstance(v, (list, tuple))`. -/
def PyVal.isinstance_list : PyVal → Bool
  | .VList _ => true
  | _ => false

/-- The integer value of a `PyVal` known to be an `int` instance. -/
def PyVal.toInt : PyVal → Int
  | .VInt n => n
  | .VBool b => if b then 1 else 0
  | _ => 0

/-- The numeric value of a `PyVal` known to be an `int` or `float` instance
(the result of Python's `float(v)`). -/
def PyVal.toRat : PyVal → ℚ
  | .VInt n => (n : ℚ)
  | .VBool b => if b then 1 else 0
  | .VFloat q => q
  | _ => 0

/-- Python truthiness, `bool(v)`. -/
def PyVal.truthy : PyVal → Bool
  | .VNone => false
  | .VBool b => b
  | .VInt n => n != 0
  | .VFloat q => q != 0
  | .VStr s => s != ""
  | .VList l => l != []

/-- Modelled from the spec: module constant `MIN_NUM` of the external
`settings` collaborator (its value is outside src/ and no claim depends on it). -/
def MIN_NUM : Int := 100000

/-- Modelled from the spec: module constant `MAX_NUM` of the external
`settings` collaborator (its value is outside src/ and no claim depends on it). -/
def MAX_NUM : Int := 999999

/-- Python's `string.ascii_lowercase`. -/
def ascii_lowercase : String := "abcdefghijklmnopqrstuvwxyz"

/-- Python's `string.ascii_uppercase`. -/
def ascii_uppercase : String := "ABCDEFGHIJKLMNOPQRSTUVWXYZ"

/-- Python's `string.digits`. -/
def digits : String := "0123456789"

/-- Python's `string.punctuation` (32 characters). -/
def punctuation : String := "!\"#$%&\x27()*+,-./:;<=>?@[\\]^_\x60\x7b|\x7d~"

/-- Modelled from the spec: the built-in EFF wordlist of the external
`wordlist` collaborator.  Its concrete contents are outside src/ and do not
affect any claim; a fixed nonempty list of words stands in for it. -/
def EFF_LONG_WORDLIST : List PyPrim :=
  [.PStr "abacus", .PStr "abdomen", .PStr "abdominal", .PStr "abide"]

/-- Modelled from the spec: the precomputed entropy-bits-per-word constant of
the built-in wordlist (external `wordlist` collaborator). -/
def EFF_LONG_WORDLIST_ENTROPY : ℚ := 12925 / 1000

/-- Tokenizer underlying `pySplit`: accumulates the current word (reversed)
and splits at whitespace. -/
def pySplitAux : List Char → List Char → List String
  | [], acc => if acc = [] then [] else [String.mk acc.reverse]
  | c :: rest, acc =>
      if c.isWhitespace then
        if acc = [] then pySplitAux rest []
        else String.mk acc.reverse :: pySplitAux rest []
      else pySplitAux rest (c :: acc)

/-- Python `s.split()`: split on runs of whitespace, discarding empty pieces. -/
def pySplit (s : String) : List String :=
  pySplitAux s.data []

/-- Python `s.strip()`: remove leading and trailing whitespace. -/
def pyStrip (s : String) : String :=
  String.mk ((s.data.dropWhile Char.isWhitespace).reverse.dropWhile Char.isWhitespace).reverse

namespace Aux

/-- Modelled from the spec: `Aux.lowercase_count` of the external `aux`
collaborator.  The spec takes the count over a sequence of words, all of them
lowercase immediately after generation ("Let n = number of words (all
currently lowercase)"), so it is the number of lowercase words. -/
def lowercase_count (ws : List String) : Int :=
  ((ws.filter fun w => str_lower w == w).length : Int)

/-- Modelled from the spec: `Aux.make_all_uppercase` — uppercase every word. -/
def make_all_uppercase (ws : List String) : List String :=
  ws.map str_upper

/-- Modelled from the spec: `Aux.make_chars_uppercase` — uppercase exactly
`amount` of the words; the spec allows any fixed deterministic subset, here
the first `amount` words. -/
def make_chars_uppercase (ws : List String) (amount : Nat) : List String :=
  (ws.take amount).map str_upper ++ ws.drop amount

end Aux

/-- Modelled from the spec: `random_hex(byte_count)` of the external `secrets`
collaborator returns "the lowercase hex encoding of byte_count random bytes";
each byte yields two hex characters.  (The code's own comment, `8-4-4-4-12`,
instead requires `randhex(n)` to return `n` hex characters; see the UUID
theorems.) -/
def randhex_bytes (bytes : List Nat) : List Char :=
  bytes.flatMap fun b => [Nat.digitChar (b / 16 % 16), Nat.digitChar (b % 16)]

/-- Modelled from the spec: `calc.entropy_bits_nrange` — entropy of the
numeric range `[mn, mx]`, `log2(max - min + 1)`; fails when `max < min`. -/
noncomputable def calc_entropy_bits_nrange (mn mx : ℚ) : Except Err ℝ :=
  if mx < mn then .error (.valueError "maximum cannot be smaller than minimum")
  else .ok (Real.logb 2 ((mx : ℝ) - (mn : ℝ) + 1))

/-- Modelled from the spec: `calc.entropy_bits` — entropy of a finite symbol
set, `log2(len(items))`; fails when the set is empty. -/
noncomputable def calc_entropy_bits (l : List PyPrim) : Except Err ℝ :=
  if l = [] then .error (.valueError "lst cannot be empty")
  else .ok (Real.logb 2 (l.length : ℝ))

/-- Modelled from the spec: `calc.password_length_needed` —
`ceil(target_bits / log2(charset_size))`; fails when `charset_size ≤ 1` or
`target_bits < 0`. -/
noncomputable def calc_password_length_needed (b : ℝ) (chars : String) : Except Err ℤ :=
  if b < 0 ∨ chars.length ≤ 1 then .error (.valueError "invalid parameters")
  else .ok (Int.ceil (b / Real.logb 2 (chars.length : ℝ)))

/-- Modelled from the spec: `calc.words_amount_needed` —
`ceil(max(0, target_bits - number_count * entropy_per_number) / entropy_per_word)`;
fails when `entropy_per_word ≤ 0`. -/
noncomputable def calc_words_amount_needed (b ew en : ℝ) (n : ℤ) : Except Err ℤ :=
  if ew ≤ 0 then .error (.valueError "entropy per word must be positive")
  else .ok (Int.ceil (max 0 (b - (n : ℝ) * en) / ew))

/-- Modelled from the spec: `calc.passphrase_entropy` —
`word_count * entropy_per_word + number_count * entropy_per_number`. -/
noncomputable def calc_passphrase_entropy (aw : ℤ) (ew en : ℝ) (an : ℤ) : ℝ :=
  (aw : ℝ) * ew + (an : ℝ) * en

/-- Modelled from the spec: `calc.password_entropy` — `length * log2(charset_size)`. -/
noncomputable def calc_password_entropy (len : ℤ) (chars : String) : ℝ :=
  (len : ℝ) * Real.logb 2 (chars.length : ℝ)

namespace Passphrase

/-- The attributes of a `Passphrase` object. -/
structure State where
  randnum_min : Int
  randnum_max : Int
  separator : String
  password_use_lowercase : Bool
  password_use_uppercase : Bool
  password_use_digits : Bool
  password_use_punctuation : Bool
  passwordlen : Option Int
  amount_n : Option Int
  amount_w : Option Int
  entropy_bits_req : Option ℚ
  wordlist : Option (List PyPrim)
  wordlist_entropy_bits : Option ℚ
  last_result : Option (List PyPrim)
deriving DecidableEq

/-- Setter `entropy_bits_req` (passphrase.py lines 57-63). -/
def set_entropy_bits_req (p : State) (v : PyVal) : State × Except Err Unit :=
  if ¬ v.isinstance_num then
    (p, .error (.typeError "entropy_bits_req can only be int or float"))
  else if v.toRat < 0 then
    (p, .error (.valueError "entropy_bits_req should be greater than 0"))
  else
    ({p with entropy_bits_req := some v.toRat}, .ok ())

/-- Setter `randnum_min` (lines 70-76). -/
def set_randnum_min (p : State) (v : PyVal) : State × Except Err Unit :=
  if ¬ v.isinstance_int then
    (p, .error (.typeError "randnum_min can only be int"))
  else if v.toInt < 0 then
    (p, .error (.valueError "randnum_min should be greater than 0"))
  else
    ({p with randnum_min := v.toInt}, .ok ())

/-- Setter `randnum_max` (lines 83-89). -/
def set_randnum_max (p : State) (v : PyVal) : State × Except Err Unit :=
  if ¬ v.isinstance_int then
    (p, .error (.typeError "randnum_max can only be int"))
  else if v.toInt < 0 then
    (p, .error (.valueError "randnum_max should be greater than 0"))
  else
    ({p with randnum_max := v.toInt}, .ok ())

/-- Setter `amount_w` (lines 96-102). -/
def set_amount_w (p : State) (v : PyVal) : State × Except Err Unit :=
  if ¬ v.isinstance_int then
    (p, .error (.typeError "amount_w can only be int"))
  else if v.toInt < 0 then
    (p, .error (.valueError "amount_w should be greater than 0"))
  else
    ({p with amount_w := some v.toInt}, .ok ())

/-- Setter `amount_n` (lines 109-115). -/
def set_amount_n (p : State) (v : PyVal) : State × Except Err Unit :=
  if ¬ v.isinstance_int then
    (p, .error (.typeError "amount_n can only be int"))
  else if v.toInt < 0 then
    (p, .error (.valueError "amount_n should be greater than 0"))
  else
    ({p with amount_n := some v.toInt}, .ok ())

/-- Setter `passwordlen` (lines 122-128). -/
def set_passwordlen (p : State) (v : PyVal) : State × Except Err Unit :=
  if ¬ v.isinstance_int then
    (p, .error (.typeError "passwordlen can only be int"))
  else if v.toInt < 0 then
    (p, .error (.valueError "passwordlen should be greater than 0"))
  else
    ({p with passwordlen := some v.toInt}, .ok ())

/-- Setter `separator` (lines 135-139). -/
def set_separator (p : State) (v : PyVal) : State × Except Err Unit :=
  match v with
  | .VStr s => ({p with separator := s}, .ok ())
  | _ => (p, .error (.typeError "separator can only be string"))

/-- Setter `wordlist` (lines 146-151): copies the sequence in and always
clears the cached per-word entropy. -/
def set_wordlist (p : State) (v : PyVal) : State × Except Err Unit :=
  match v with
  | .VList l =>
      ({p with wordlist := some l, wordlist_entropy_bits := none}, .ok ())
  | _ => (p, .error (.typeError "wordlist can only be list or tuple"))

/-- Setter `password_use_lowercase` (lines 158-160): coerces with `bool()`,
never raises. -/
def set_password_use_lowercase (p : State) (v : PyVal) : State × Except Err Unit :=
  ({p with password_use_lowercase := v.truthy}, .ok ())

/-- Setter `password_use_uppercase` (lines 167-169). -/
def set_password_use_uppercase (p : State) (v : PyVal) : State × Except Err Unit :=
  ({p with password_use_uppercase := v.truthy}, .ok ())

/-- Setter `password_use_digits` (lines 176-178). -/
def set_password_use_digits (p : State) (v : PyVal) : State × Except Err Unit :=
  ({p with password_use_digits := v.truthy}, .ok ())

/-- Setter `password_use_punctuation` (lines 185-187). -/
def set_password_use_punctuation (p : State) (v : PyVal) : State × Except Err Unit :=
  ({p with password_use_punctuation := v.truthy}, .ok ())

/-- Helper `_get_password_characters` with `cathegorized=False` (lines 201-213). -/
def get_password_characters (p : State) : String :=
  String.join
    ((if p.password_use_lowercase then [ascii_lowercase] else []) ++
     (if p.password_use_uppercase then [ascii_uppercase] else []) ++
     (if p.password_use_digits then [digits] else []) ++
     (if p.password_use_punctuation then [punctuation] else []))

/-- Python truthiness of `self.wordlist`: falsy when `None` or empty. -/
def wordlist_falsy (p : State) : Prop :=
  p.wordlist = none ∨ p.wordlist = some []

instance (p : State) : Decidable (wordlist_falsy p) := by
  unfold wordlist_falsy; infer_instance

/-- The `__init__` attribute assignments for a `Passphrase()` constructed without
an input file (lines 234-247). -/
def init_fields : State where
  randnum_min := MIN_NUM
  randnum_max := MAX_NUM
  separator := " "
  password_use_lowercase := true
  password_use_uppercase := true
  password_use_digits := true
  password_use_punctuation := true
  passwordlen := none
  amount_n := none
  amount_w := none
  entropy_bits_req := none
  wordlist := none
  wordlist_entropy_bits := none
  last_result := none

/-- Method `load_internal_wordlist` (lines 295-298): assigns the built-in wordlist
and its precomputed entropy constant directly, bypassing the setter. -/
def load_internal_wordlist (p : State) : State :=
  {p with wordlist := some EFF_LONG_WORDLIST,
          wordlist_entropy_bits := some EFF_LONG_WORDLIST_ENTROPY}

/-- Helper `_read_words_from_wordfile` (lines 190-193): one word per line, stripped. -/
def read_words_from_wordfile (lines : List String) : List PyPrim :=
  lines.map fun l => .PStr (pyStrip l)

/-- Helper `_read_words_from_diceware` (lines 196-199): `word.split()[1]` per line;
a line with fewer than two whitespace-separated columns raises `IndexError`. -/
def read_words_from_diceware (lines : List String) : Except Err (List PyPrim) :=
  lines.mapM fun l =>
    match (pySplit l).get? 1 with
    | some w => .ok (.PStr w)
    | none => .error .indexError

/-- Method `import_words_from_file` (lines 300-322).  The external
`Aux.isfile_notempty` check and the file's content are modelled by the
`file` argument: `none` when the path does not name a nonempty regular file,
otherwise the file's lines.  Note the cache is cleared *before* parsing. -/
def import_words_from_file (p : State) (file : Option (List String))
    (is_diceware : Bool) : State × Except Err Unit :=
  match file with
  | none =>
      (p, .error (.fileNotFoundError
        "Input file does not exists, is not valid or is empty"))
  | some lines =>
      let p1 := {p with wordlist_entropy_bits := none}
      if is_diceware then
        match read_words_from_diceware lines with
        | .ok ws => ({p1 with wordlist := some ws}, .ok ())
        | .error e => (p1, .error e)
      else
        ({p1 with wordlist := some (read_words_from_wordfile lines)}, .ok ())

/-- Constructor `__init__` (lines 215-252): the `inputfile` path argument and the file
it names are modelled by `inputfile` and `file`. -/
def init (inputfile : Option String) (file : Option (List String))
    (is_diceware : Bool) : State × Except Err Unit :=
  if inputfile = some "internal" then (load_internal_wordlist init_fields, .ok ())
  else
    match inputfile with
    | some _ => import_words_from_file init_fields file is_diceware
    | none => (init_fields, .ok ())

/-- Method `__str__` (lines 254-266): concatenate `str(w) + separator` over the last
result and slice off the final separator (`[:-len(sep)]`, or `[:None]` when
the separator is empty); `None` or empty last result gives the empty string. -/
def toStr (p : State) : String :=
  match p.last_result with
  | none => ""
  | some l =>
      if l = [] then ""
      else
        let sep := p.separator.data
        let cs := (l.map fun w => (PyPrim.render w).data ++ sep).flatten
        String.mk (if sep.length > 0 then cs.take (cs.length - sep.length) else cs)

/-- Static method `entropy_bits` (lines 268-293): a 2-element sequence of
numerics dispatches to the range entropy, any other sequence to the symbol
set entropy, and a non-sequence raises `TypeError`. -/
noncomputable def entropy_bits (lst : PyVal) : Except Err ℝ :=
  match lst with
  | .VList l =>
      if l.length = 2 ∧ (l.getD 0 .PNone).isinstance_num
          ∧ (l.getD 1 .PNone).isinstance_num then
        calc_entropy_bits_nrange (l.getD 0 .PNone).toRat (l.getD 1 .PNone).toRat
      else
        calc_entropy_bits l
  | _ => .error (.typeError "lst must be a list or a tuple")

/-- The per-word entropy used by the queries (lines 367-369 and 410-412):
the cached value when truthy, else a fresh computation over the wordlist. -/
noncomputable def wordlist_entropy_used (p : State) : Except Err ℝ :=
  match p.wordlist_entropy_bits with
  | some c => if c = 0 then entropy_bits (.VList (p.wordlist.getD [])) else .ok (c : ℝ)
  | none => entropy_bits (.VList (p.wordlist.getD []))

/-- Query `password_length_needed` (lines 324-342); reads configuration only. -/
noncomputable def password_length_needed (p : State) : Except Err ℤ :=
  let characters := get_password_characters p
  if p.entropy_bits_req = none ∨ characters = "" then
    .error (.valueError
      "Cannot calculate the password length needed: entropy_bits_req is not set or the character set is empty")
  else
    calc_password_length_needed ((p.entropy_bits_req.getD 0 : ℚ) : ℝ) characters

/-- Query `words_amount_needed` (lines 344-376); reads configuration only. -/
noncomputable def words_amount_needed (p : State) : Except Err ℤ :=
  if p.entropy_bits_req = none ∨ p.amount_n = none ∨ wordlist_falsy p then
    .error (.valueError
      "Cannot calculate the words amount needed: wordlist is empty or entropy_bits_req or amount_n is not set")
  else do
    let entropy_n ← entropy_bits (.VList [.PInt p.randnum_min, .PInt p.randnum_max])
    let entropy_w ← wordlist_entropy_used p
    calc_words_amount_needed ((p.entropy_bits_req.getD 0 : ℚ) : ℝ) entropy_w
      entropy_n (p.amount_n.getD 0)

/-- Query `generated_password_entropy` (lines 378-391); reads configuration only. -/
noncomputable def generated_password_entropy (p : State) : Except Err ℝ :=
  let characters := get_password_characters p
  if p.passwordlen = none ∨ characters = "" then
    .error (.valueError
      "Cannot calculate the password entropy: character set is empty or passwordlen is not set")
  else if p.passwordlen.getD 0 = 0 then .ok 0
  else .ok (calc_password_entropy (p.passwordlen.getD 0) characters)

/-- Query `generated_passphrase_entropy` (lines 393-419); reads configuration only. -/
noncomputable def generated_passphrase_entropy (p : State) : Except Err ℝ :=
  if p.amount_w = none ∨ p.amount_n = none ∨ wordlist_falsy p then
    .error (.valueError
      "Cannot calculate the passphrase entropy: wordlist is empty or amount_n or amount_w is not set")
  else if p.amount_n.getD 0 = 0 ∧ p.amount_w.getD 0 = 0 then .ok 0
  else do
    let entropy_n ← entropy_bits (.VList [.PInt p.randnum_min, .PInt p.randnum_max])
    let entropy_w ← wordlist_entropy_used p
    .ok (calc_passphrase_entropy (p.amount_w.getD 0) entropy_w entropy_n
      (p.amount_n.getD 0))

/-- The uppercase-handling block of `generate` (lines 447-464), applied to the
freshly generated lowercase words and the (already type-checked) directive. -/
def handle_uppercase (passphrase : List String) (uppercase : Option Int) : List String :=
  let lowercase : Int := Aux.lowercase_count passphrase
  match uppercase with
  | none => passphrase
  | some u0 =>
      if passphrase = [] then passphrase
      else
        let u1 := if u0 < 0 ∧ lowercase > -u0 then lowercase + u0 else u0
        if u1 = 0 ∨ u1 > lowercase then Aux.make_all_uppercase passphrase
        else if u1 > 0 then Aux.make_chars_uppercase passphrase u1.toNat
        else passphrase

/-- Method `generate` (lines 421-471).  The `randchoice` draws are modelled by the
index oracle `draws` (reduced modulo the wordlist length) and the
`randbetween` draws by the oracle `nums`. -/
def generate (p : State) (draws : Nat → Nat) (nums : Nat → Int)
    (uppercase : Option PyVal) : State × Except Err (List PyPrim) :=
  if p.amount_n = none ∨ p.amount_w = none ∨ wordlist_falsy p then
    (p, .error (.valueError
      "Cannot generate passphrase: wordlist is empty or amount_n or amount_w is not set"))
  else if (match uppercase with | some v => ! v.isinstance_int | none => false) then
    (p, .error (.typeError "uppercase must be an integer number"))
  else
    match (List.range (p.amount_w.getD 0).toNat).mapM
        (fun i => ((p.wordlist.getD []).getD (draws i % (p.wordlist.getD []).length) .PNone).lower) with
    | .error e => (p, .error e)
    | .ok ws =>
        let ws2 := handle_uppercase ws (uppercase.map PyVal.toInt)
        let res := ws2.map PyPrim.PStr ++
          (List.range (p.amount_n.getD 0).toNat).map fun i => PyPrim.PInt (nums i)
        ({p with last_result := some res}, .ok res)

/-- Method `generate_password` (lines 473-488).  The `randchoice` draws over the
character set are modelled by the index oracle `draws`. -/
def generate_password (p : State) (draws : Nat → Nat) : State × Except Err (List PyPrim) :=
  let characterset := get_password_characters p
  if p.passwordlen = none ∨ characterset = "" then
    (p, .error (.valueError
      "Cannot generate password: character set is empty or passwordlen is not set"))
  else
    let cs := characterset.data
    let pwd := (List.range (p.passwordlen.getD 0).toNat).map
      fun i => PyPrim.PStr (String.mk [cs.getD (draws i % cs.length) 'a'])
    ({p with last_result := some pwd}, .ok pwd)

/-- Method `generate_uuid4` (lines 490-509).  `hexstr` is the string returned by
`randhex(30)` (as characters) and `r` the draw `randbetween(8, 11)`;
`'{:x}'.format(r)` is the lowercase hex rendering `Nat.toDigits 16 r`. -/
def generate_uuid4 (p : State) (hexstr : List Char) (r : Nat) : State × List (List Char) :=
  let uuid4 : List (List Char) :=
    [hexstr.take 8,
     (hexstr.drop 8).take 4,
     '4' :: (hexstr.drop 12).take 3,
     Nat.toDigits 16 r ++ (hexstr.drop 15).take 3,
     hexstr.drop 18]
  ({p with last_result := some (uuid4.map fun cs => .PStr (String.mk cs))}, uuid4)

end Passphrase

/-- The specification's rendering of a result: the elements, each rendered as
a string, joined by the separator with no trailing separator (stated with
`List.intersperse`, independently of the implementation's slicing trick). -/
def joined_by_separator (sep : String) (l : List PyPrim) : String :=
  String.mk (List.flatten (List.intersperse sep.data (l.map fun v => (PyPrim.render v).data)))

theorem flatten_map_append_sep (sep : List Char) :
    ∀ l : List (List Char), l ≠ [] →
      (l.map fun a => a ++ sep).flatten = (List.intersperse sep l).flatten ++ sep
  | [], h => absurd rfl h
  | [x], _ => by simp
  | x :: y :: t, _ => by
      have ih := flatten_map_append_sep sep (y :: t) (by simp)
      simp only [List.map_cons, List.flatten_cons, List.intersperse_cons_cons] at *
      rw [ih]
      simp [List.append_assoc]

theorem flatten_intersperse_nil :
    ∀ l : List (List Char), (List.intersperse ([] : List Char) l).flatten = l.flatten
  | [] => rfl
  | [x] => by simp
  | x :: y :: t => by
      simp only [List.intersperse_cons_cons, List.flatten_cons]
      rw [flatten_intersperse_nil (y :: t)]
      simp

/-- Claim C9: for every state, the stringified result equals the elements of
`last_result`, each rendered as a string, joined by the configured separator
with no trailing separator; an empty or unset `last_result` renders as the
empty string; and this holds for every separator, including the empty string
and multi-character separators. -/
theorem C9_str_is_join (p : Passphrase.State) :
    Passphrase.toStr p = joined_by_separator p.separator (p.last_result.getD []) := by
  unfold Passphrase.toStr joined_by_separator
  cases hl : p.last_result with
  | none => simp
  | some l =>
      cases l with
      | nil => simp
      | cons a t =>
          simp only [Option.getD_some, if_neg (List.cons_ne_nil a t)]
          have hmap : ((a :: t).map fun w => (PyPrim.render w).data ++ p.separator.data)
              = (((a :: t).map fun w => (PyPrim.render w).data).map fun c => c ++ p.separator.data) := by
            simp
          rw [hmap, flatten_map_append_sep _ _ (by simp)]
          by_cases hs : p.separator.data.length > 0
          · rw [if_pos hs]
            congr 1
            rw [List.length_append, Nat.add_sub_cancel, List.take_left]
          · rw [if_neg hs]
            have hnil : p.separator.data = [] := List.length_eq_zero.mp (by omega)
            rw [hnil]
            simp [flatten_intersperse_nil]

/-- Claim C10: a `Passphrase` constructed without an input file starts with
all four character classes enabled, separator a single space, `randnum_min`
and `randnum_max` equal to the module constants `MIN_NUM` and `MAX_NUM`, and
`passwordlen`, `amount_w`, `amount_n`, `entropy_bits_req`, `wordlist` and
`last_result` all unset; consequently the default password character set is
the full 94-character union of the four classes. -/
theorem C10_init_defaults :
    Passphrase.init none none false =
      ({ randnum_min := MIN_NUM
         randnum_max := MAX_NUM
         separator := " "
         password_use_lowercase := true
         password_use_uppercase := true
         password_use_digits := true
         password_use_punctuation := true
         passwordlen := none
         amount_n := none
         amount_w := none
         entropy_bits_req := none
         wordlist := none
         wordlist_entropy_bits := none
         last_result := none }, .ok ())
    ∧ Passphrase.get_password_characters (Passphrase.init none none false).1
        = ascii_lowercase ++ ascii_uppercase ++ digits ++ punctuation
    ∧ (Passphrase.get_password_characters (Passphrase.init none none false).1).length = 94 := by
  refine ⟨rfl, by decide, by decide⟩

theorem lowercase_count_eq_length {ws : List String} (h : ∀ w ∈ ws, str_lower w = w) :
    Aux.lowercase_count ws = (ws.length : Int) := by
  unfold Aux.lowercase_count
  have hf : ws.filter (fun w => str_lower w == w) = ws :=
    List.filter_eq_self.mpr fun a ha => by simpa using h a ha
  rw [hf]

theorem zip_self_filter_ne (l : List String) :
    ((l.zip l).filter fun q => q.1 != q.2) = [] := by
  induction l with
  | nil => rfl
  | cons a t ih => simp [List.zip_cons_cons, List.filter_cons, ih]

theorem zip_map_toUpper_filter (l : List String) (h : ∀ w ∈ l, str_upper w ≠ w) :
    (((l.map str_upper).zip l).filter fun q => q.1 != q.2).length = l.length := by
  induction l with
  | nil => rfl
  | cons a t ih =>
      have ha : str_upper a ≠ a := h a (by simp)
      have iht := ih fun w hw => h w (by simp [hw])
      simp [List.zip_cons_cons, List.filter_cons, bne_iff_ne, ha, iht]

/-- The number of words changed (uppercased) by `make_chars_uppercase` is
exactly its `amount` argument, whenever each word actually changes case. -/
theorem make_chars_uppercase_count (ws : List String) (k : Nat) (hk : k ≤ ws.length)
    (hupper : ∀ w ∈ ws, str_upper w ≠ w) :
    (((Aux.make_chars_uppercase ws k).zip ws).filter fun q => q.1 != q.2).length = k := by
  unfold Aux.make_chars_uppercase
  nth_rewrite 3 [← List.take_append_drop k ws]
  rw [List.zip_append (by simp), List.filter_append, List.length_append,
    zip_map_toUpper_filter _ (fun w hw => hupper w (List.take_subset k ws hw)),
    zip_self_filter_ne]
  simp [List.length_take, Nat.min_eq_left hk]

/-- Characterization of the uppercase block for a positive directive over a
nonempty all-lowercase word list. -/
theorem handle_uppercase_pos (ws : List String) (u : Int)
    (hlow : ∀ w ∈ ws, str_lower w = w) (hu : 0 < u) (hne : ws ≠ []) :
    Passphrase.handle_uppercase ws (some u) =
      if u > (ws.length : Int) then ws.map str_upper
      else Aux.make_chars_uppercase ws u.toNat := by
  have hlc := lowercase_count_eq_length hlow
  unfold Passphrase.handle_uppercase
  simp only [hlc, if_neg hne]
  rw [if_neg (by omega : ¬ (u < 0 ∧ (ws.length : Int) > -u))]
  by_cases hgt : u > (ws.length : Int)
  · rw [if_pos (Or.inr hgt), if_pos hgt]
    rfl
  · rw [if_neg (by omega : ¬ (u = 0 ∨ u > (ws.length : Int))), if_pos hu, if_neg hgt]

/-- Characterization of the uppercase block for a negative directive over a
nonempty all-lowercase word list: the effective count `n + u` is used when
`n > -u`, and otherwise the words are left untouched (the directive stays
negative and no branch fires). -/
theorem handle_uppercase_neg (ws : List String) (u : Int)
    (hlow : ∀ w ∈ ws, str_lower w = w) (hu : u < 0) (hne : ws ≠ []) :
    Passphrase.handle_uppercase ws (some u) =
      if (ws.length : Int) > -u then
        Aux.make_chars_uppercase ws ((ws.length : Int) + u).toNat
      else ws := by
  have hlc := lowercase_count_eq_length hlow
  have hn : 0 < ws.length := List.length_pos.mpr hne
  unfold Passphrase.handle_uppercase
  simp only [hlc, if_neg hne]
  by_cases hadj : (ws.length : Int) > -u
  · rw [if_pos hadj]
    rw [if_pos (show u < 0 ∧ (ws.length : Int) > -u from ⟨hu, hadj⟩)]
    rw [if_neg (show ¬ ((ws.length : Int) + u = 0 ∨ (ws.length : Int) + u > (ws.length : Int)) by omega)]
    rw [if_pos (show (ws.length : Int) + u > 0 by omega)]
  · rw [if_neg hadj]
    rw [if_neg (show ¬ (u < 0 ∧ (ws.length : Int) > -u) from fun h => hadj h.2)]
    rw [if_neg (show ¬ (u = 0 ∨ u > (ws.length : Int)) by omega)]
    rw [if_neg (show ¬ u > 0 by omega)]

/-- Claim C1 (amended): with `n` generated lowercase words and a negative
directive `u`, the effective count is `n + u` when `n > -u`, and then exactly
`n + u` words are uppercased; when `n ≤ -u` the directive stays negative and
the result is all words unchanged (no word uppercased) — not "all words
uppercased".  In particular, for 5 lowercase words, `u = -2` uppercases
exactly 3 words and `u = -5` leaves all 5 words lowercase. -/
theorem C1_negative_directive (ws : List String) (u : Int)
    (hlow : ∀ w ∈ ws, str_lower w = w) (hne : ws ≠ []) (hu : u < 0) :
    ((-u) < (ws.length : Int) →
        Passphrase.handle_uppercase ws (some u)
          = Aux.make_chars_uppercase ws ((ws.length : Int) + u).toNat
        ∧ ((∀ w ∈ ws, str_upper w ≠ w) →
            (((Passphrase.handle_uppercase ws (some u)).zip ws).filter
                fun q => q.1 != q.2).length = ((ws.length : Int) + u).toNat))
    ∧ ((ws.length : Int) ≤ (-u) → Passphrase.handle_uppercase ws (some u) = ws) := by
  constructor
  · intro hlt
    have heq : Passphrase.handle_uppercase ws (some u)
        = Aux.make_chars_uppercase ws ((ws.length : Int) + u).toNat := by
      rw [handle_uppercase_neg ws u hlow hu hne, if_pos (by omega)]
    refine ⟨heq, fun hupper => ?_⟩
    rw [heq]
    exact make_chars_uppercase_count ws _ (by omega) hupper
  · intro hle
    rw [handle_uppercase_neg ws u hlow hu hne, if_neg (by omega)]

/-- Claim C1, as stated, is false at a concrete input: for 5 lowercase words
and `u = -5` (effective count 0), the code leaves every word lowercase instead
of uppercasing them all. -/
theorem C1_counterexample :
    Passphrase.handle_uppercase ["alpha", "bravo", "charlie", "delta", "echo"] (some (-5))
      = ["alpha", "bravo", "charlie", "delta", "echo"]
    ∧ Passphrase.handle_uppercase ["alpha", "bravo", "charlie", "delta", "echo"] (some (-5))
      ≠ ["ALPHA", "BRAVO", "CHARLIE", "DELTA", "ECHO"] := by
  constructor
  · decide
  · decide

theorem C1_witness :
    (∀ w ∈ ["alpha", "bravo", "charlie", "delta", "echo"], str_lower w = w)
    ∧ (["alpha", "bravo", "charlie", "delta", "echo"] : List String) ≠ []
    ∧ (-2 : Int) < 0
    ∧ (((-(-2) : Int) < ((["alpha", "bravo", "charlie", "delta", "echo"] : List String).length : Int) →
        Passphrase.handle_uppercase ["alpha", "bravo", "charlie", "delta", "echo"] (some (-2))
          = Aux.make_chars_uppercase ["alpha", "bravo", "charlie", "delta", "echo"]
              (((["alpha", "bravo", "charlie", "delta", "echo"] : List String).length : Int) + (-2)).toNat
        ∧ ((∀ w ∈ ["alpha", "bravo", "charlie", "delta", "echo"], str_upper w ≠ w) →
            (((Passphrase.handle_uppercase ["alpha", "bravo", "charlie", "delta", "echo"] (some (-2))).zip
                ["alpha", "bravo", "charlie", "delta", "echo"]).filter
                fun q => q.1 != q.2).length
              = (((["alpha", "bravo", "charlie", "delta", "echo"] : List String).length : Int) + (-2)).toNat))
      ∧ (((["alpha", "bravo", "charlie", "delta", "echo"] : List String).length : Int) ≤ (-(-2) : Int) →
          Passphrase.handle_uppercase ["alpha", "bravo", "charlie", "delta", "echo"] (some (-2))
            = ["alpha", "bravo", "charlie", "delta", "echo"])) :=
  ⟨by decide, by decide, by decide,
    C1_negative_directive ["alpha", "bravo", "charlie", "delta", "echo"] (-2)
      (by decide) (by decide) (by decide)⟩

/-- Claim C2: for a positive directive `u` over `n` generated lowercase words,
if `u ≥ n` every word is uppercased; if `0 < u < n` exactly `u` of the words
are uppercased (the implementation uppercases the fixed subset of the first
`u` words). -/
theorem C2_positive_directive (ws : List String) (u : Int)
    (hlow : ∀ w ∈ ws, str_lower w = w) (hu : 0 < u) :
    ((ws.length : Int) ≤ u →
        Passphrase.handle_uppercase ws (some u) = ws.map str_upper)
    ∧ (u < (ws.length : Int) →
        Passphrase.handle_uppercase ws (some u) = Aux.make_chars_uppercase ws u.toNat
        ∧ ((∀ w ∈ ws, str_upper w ≠ w) →
            (((Passphrase.handle_uppercase ws (some u)).zip ws).filter
                fun q => q.1 != q.2).length = u.toNat)) := by
  constructor
  · intro hle
    cases ws with
    | nil => rfl
    | cons a t =>
        rw [handle_uppercase_pos _ _ hlow hu (by simp)]
        by_cases hgt : u > (((a :: t).length : ℕ) : Int)
        · rw [if_pos hgt]
        · have hkn : u.toNat = (a :: t).length := by omega
          rw [if_neg hgt]
          unfold Aux.make_chars_uppercase
          rw [hkn, List.take_length, List.drop_length, List.append_nil]
  · intro hlt
    have hne : ws ≠ [] := by
      intro h
      subst h
      simp only [List.length_nil, Nat.cast_zero] at hlt
      omega
    have heq : Passphrase.handle_uppercase ws (some u)
        = Aux.make_chars_uppercase ws u.toNat := by
      rw [handle_uppercase_pos _ _ hlow hu hne, if_neg (by omega)]
    refine ⟨heq, fun hupper => ?_⟩
    rw [heq]
    exact make_chars_uppercase_count ws _ (by omega) hupper

theorem C2_witness :
    (∀ w ∈ ["alpha", "bravo", "charlie", "delta", "echo"], str_lower w = w)
    ∧ (0 : Int) < 2
    ∧ ((((["alpha", "bravo", "charlie", "delta", "echo"] : List String).length : ℕ) : Int) ≤ 2 →
        Passphrase.handle_uppercase ["alpha", "bravo", "charlie", "delta", "echo"] (some 2)
          = ["alpha", "bravo", "charlie", "delta", "echo"].map str_upper)
    ∧ ((2 : Int) < (((["alpha", "bravo", "charlie", "delta", "echo"] : List String).length : ℕ) : Int) →
        Passphrase.handle_uppercase ["alpha", "bravo", "charlie", "delta", "echo"] (some 2)
          = Aux.make_chars_uppercase ["alpha", "bravo", "charlie", "delta", "echo"] (2 : Int).toNat
        ∧ ((∀ w ∈ ["alpha", "bravo", "charlie", "delta", "echo"], str_upper w ≠ w) →
            (((Passphrase.handle_uppercase ["alpha", "bravo", "charlie", "delta", "echo"] (some 2)).zip
                ["alpha", "bravo", "charlie", "delta", "echo"]).filter
                fun q => q.1 != q.2).length = (2 : Int).toNat)) :=
  ⟨by decide, by decide,
    (C2_positive_directive ["alpha", "bravo", "charlie", "delta", "echo"] 2 (by decide) (by decide)).1,
    (C2_positive_directive ["alpha", "bravo", "charlie", "delta", "echo"] 2 (by decide) (by decide)).2⟩

/-- Claim C3, as stated, is false at a concrete input: with the spec's
reading of `random_hex` (30 random *bytes*, hence 60 hex characters — here 30
zero bytes), the five parts of `generate_uuid4` concatenate to 62 characters,
not 32. -/
theorem C3_counterexample :
    (((Passphrase.generate_uuid4 Passphrase.init_fields
        (randhex_bytes (List.replicate 30 0)) 8).2.map List.length).sum = 62)
    ∧ ¬ (((Passphrase.generate_uuid4 Passphrase.init_fields
        (randhex_bytes (List.replicate 30 0)) 8).2.map List.length).sum = 32) := by
  constructor
  · decide
  · decide

/-- Claim C3 (amended): `randhex(30)` returns 30 hex *characters* (15 random
bytes), as the code's own `8-4-4-4-12` comment requires — not the 30 bytes /
60 characters the spec's hypothesis states.  Then `generate_uuid4` always
returns a 5-part sequence whose concatenated length is exactly 32 hex
characters, whose third part starts with `4`, and whose fourth part's first
character is one of `8`, `9`, `a`, `b`, given that the `randbetween(8, 11)`
draw `r` lies in `[8, 11]`. -/
theorem C3_uuid4_shape (p : Passphrase.State) (hexstr : List Char) (r : Nat)
    (hlen : hexstr.length = 30) (hr1 : 8 ≤ r) (hr2 : r ≤ 11) :
    ((Passphrase.generate_uuid4 p hexstr r).2.length = 5)
    ∧ (((Passphrase.generate_uuid4 p hexstr r).2.map List.length).sum = 32)
    ∧ (((Passphrase.generate_uuid4 p hexstr r).2.getD 2 []).head? = some '4')
    ∧ (((Passphrase.generate_uuid4 p hexstr r).2.getD 3 []).head? = some '8'
       ∨ ((Passphrase.generate_uuid4 p hexstr r).2.getD 3 []).head? = some '9'
       ∨ ((Passphrase.generate_uuid4 p hexstr r).2.getD 3 []).head? = some 'a'
       ∨ ((Passphrase.generate_uuid4 p hexstr r).2.getD 3 []).head? = some 'b') := by
  have hdig : Nat.toDigits 16 r = [Nat.digitChar r] := by
    interval_cases r <;> rfl
  unfold Passphrase.generate_uuid4
  refine ⟨rfl, ?_, ?_, ?_⟩
  · simp [List.length_take, List.length_drop, hlen, hdig]
  · rfl
  · have hgd : (([hexstr.take 8, (hexstr.drop 8).take 4,
        '4' :: (hexstr.drop 12).take 3,
        Nat.toDigits 16 r ++ (hexstr.drop 15).take 3,
        hexstr.drop 18] : List (List Char)).getD 3 []).head?
        = some (Nat.digitChar r) := by
      rw [show (([hexstr.take 8, (hexstr.drop 8).take 4,
          '4' :: (hexstr.drop 12).take 3,
          Nat.toDigits 16 r ++ (hexstr.drop 15).take 3,
          hexstr.drop 18] : List (List Char)).getD 3 [])
          = Nat.toDigits 16 r ++ (hexstr.drop 15).take 3 from rfl, hdig]
      rfl
    rw [hgd]
    interval_cases r <;> decide

theorem C3_witness :
    (List.replicate 30 '0').length = 30 ∧ 8 ≤ 10 ∧ 10 ≤ 11
    ∧ (((Passphrase.generate_uuid4 Passphrase.init_fields (List.replicate 30 '0') 10).2.length = 5)
       ∧ (((Passphrase.generate_uuid4 Passphrase.init_fields (List.replicate 30 '0') 10).2.map
            List.length).sum = 32)
       ∧ (((Passphrase.generate_uuid4 Passphrase.init_fields (List.replicate 30 '0') 10).2.getD 2 []).head?
            = some '4')
       ∧ (((Passphrase.generate_uuid4 Passphrase.init_fields (List.replicate 30 '0') 10).2.getD 3 []).head?
            = some '8'
          ∨ ((Passphrase.generate_uuid4 Passphrase.init_fields (List.replicate 30 '0') 10).2.getD 3 []).head?
            = some '9'
          ∨ ((Passphrase.generate_uuid4 Passphrase.init_fields (List.replicate 30 '0') 10).2.getD 3 []).head?
            = some 'a'
          ∨ ((Passphrase.generate_uuid4 Passphrase.init_fields (List.replicate 30 '0') 10).2.getD 3 []).head?
            = some 'b')) :=
  ⟨by decide, by decide, by decide,
    C3_uuid4_shape Passphrase.init_fields (List.replicate 30 '0') 10 (by decide) (by decide) (by decide)⟩

/-- Claim C5: the `entropy_bits` query dispatches by shape — a list of length
exactly 2 with both elements numeric is treated as the numeric range
`[lst[0], lst[1]]` (yielding `log2(max - min + 1)` when the range is proper),
any other list as a symbol-set enumeration (yielding `log2` of its length
when nonempty), and a non-list argument raises a type error. -/
theorem C5_entropy_dispatch (l : List PyPrim) (a b : PyPrim) (v : PyVal) :
    (l = [a, b] → a.isinstance_num → b.isinstance_num →
        Passphrase.entropy_bits (.VList l) = calc_entropy_bits_nrange a.toRat b.toRat
        ∧ (a.toRat ≤ b.toRat →
            Passphrase.entropy_bits (.VList l)
              = .ok (Real.logb 2 ((b.toRat : ℝ) - (a.toRat : ℝ) + 1))))
    ∧ (¬ (l.length = 2 ∧ (l.getD 0 .PNone).isinstance_num ∧ (l.getD 1 .PNone).isinstance_num) →
        Passphrase.entropy_bits (.VList l) = calc_entropy_bits l
        ∧ (l ≠ [] →
            Passphrase.entropy_bits (.VList l) = .ok (Real.logb 2 (l.length : ℝ))))
    ∧ (¬ v.isinstance_list →
        Passphrase.entropy_bits v = .error (.typeError "lst must be a list or a tuple")) := by
  refine ⟨?_, ?_, ?_⟩
  · intro hl ha hb
    subst hl
    have hcond : ([a, b].length = 2 ∧ ([a, b].getD 0 .PNone).isinstance_num
        ∧ ([a, b].getD 1 .PNone).isinstance_num) := ⟨rfl, by simpa using ha, by simpa using hb⟩
    have hdisp : Passphrase.entropy_bits (.VList [a, b])
        = calc_entropy_bits_nrange a.toRat b.toRat := by
      simp only [Passphrase.entropy_bits]
      rw [if_pos hcond]
      rfl
    refine ⟨hdisp, fun hab => ?_⟩
    rw [hdisp]
    unfold calc_entropy_bits_nrange
    rw [if_neg (not_lt.mpr hab)]
  · intro hnot
    have hdisp : Passphrase.entropy_bits (.VList l) = calc_entropy_bits l := by
      simp only [Passphrase.entropy_bits]
      rw [if_neg hnot]
    refine ⟨hdisp, fun hne => ?_⟩
    rw [hdisp]
    unfold calc_entropy_bits
    rw [if_neg hne]
  · intro hv
    cases v <;> simp_all [Passphrase.entropy_bits, PyVal.isinstance_list]

theorem C5_witness :
    ([.PInt 3, .PInt 7] : List PyPrim) = [.PInt 3, .PInt 7]
    ∧ PyPrim.isinstance_num (.PInt 3) ∧ PyPrim.isinstance_num (.PInt 7)
    ∧ Passphrase.entropy_bits (.VList [.PInt 3, .PInt 7])
        = calc_entropy_bits_nrange (PyPrim.toRat (.PInt 3)) (PyPrim.toRat (.PInt 7)) :=
  ⟨rfl, by decide, by decide,
    ((C5_entropy_dispatch [.PInt 3, .PInt 7] (.PInt 3) (.PInt 7) .VNone).1 rfl
      (by decide) (by decide)).1⟩

/-- Claim C7, as stated, is false at a concrete input: starting from the
defaults, the accepted assignments `randnum_max := 0` then `randnum_min := 5`
reach a state with `randnum_min > randnum_max`. -/
theorem C7_counterexample :
    ((Passphrase.set_randnum_max Passphrase.init_fields (.VInt 0)).2 = .ok ())
    ∧ ((Passphrase.set_randnum_min
        (Passphrase.set_randnum_max Passphrase.init_fields (.VInt 0)).1 (.VInt 5)).2 = .ok ())
    ∧ ((Passphrase.set_randnum_min
        (Passphrase.set_randnum_max Passphrase.init_fields (.VInt 0)).1 (.VInt 5)).1.randnum_min
      > (Passphrase.set_randnum_min
        (Passphrase.set_randnum_max Passphrase.init_fields (.VInt 0)).1 (.VInt 5)).1.randnum_max) := by
  refine ⟨by decide, by decide, by decide⟩

/-- Claim C7 (amended): the `randnum_min` and `randnum_max` setters validate
only the value itself (integer type and non-negativity) and never consult the
other bound, so every non-negative integer assignment is accepted regardless
of the other bound; the invariant `randnum_min ≤ randnum_max` is therefore
not maintained by the setters, and states violating it are reachable. -/
theorem C7_setters_no_cross_check (p : Passphrase.State) (n : Int) (h : 0 ≤ n) :
    Passphrase.set_randnum_min p (.VInt n) = ({p with randnum_min := n}, .ok ())
    ∧ Passphrase.set_randnum_max p (.VInt n) = ({p with randnum_max := n}, .ok ()) := by
  constructor
  · unfold Passphrase.set_randnum_min
    rw [if_neg (by simp [PyVal.isinstance_int]), if_neg (by simp [PyVal.toInt]; omega)]
    rfl
  · unfold Passphrase.set_randnum_max
    rw [if_neg (by simp [PyVal.isinstance_int]), if_neg (by simp [PyVal.toInt]; omega)]
    rfl

theorem C7_witness :
    (0 : Int) ≤ 3
    ∧ (Passphrase.set_randnum_min Passphrase.init_fields (.VInt 3)
        = ({Passphrase.init_fields with randnum_min := 3}, .ok ())
       ∧ Passphrase.set_randnum_max Passphrase.init_fields (.VInt 3)
        = ({Passphrase.init_fields with randnum_max := 3}, .ok ())) :=
  ⟨by decide, C7_setters_no_cross_check Passphrase.init_fields 3 (by decide)⟩

/-- Claim C8: every accepted assignment through the `wordlist` setter and
every successful `import_words_from_file` leave the cached
entropy-bits-per-word value unset, and `load_internal_wordlist` sets the
cache to the built-in wordlist's precomputed entropy constant and the
wordlist to the built-in list. -/
theorem C8_cache_invalidation (p : Passphrase.State) (v : PyVal)
    (file : Option (List String)) (dice : Bool) :
    ((Passphrase.set_wordlist p v).2 = .ok () →
        (Passphrase.set_wordlist p v).1.wordlist_entropy_bits = none)
    ∧ ((Passphrase.import_words_from_file p file dice).2 = .ok () →
        (Passphrase.import_words_from_file p file dice).1.wordlist_entropy_bits = none)
    ∧ ((Passphrase.load_internal_wordlist p).wordlist_entropy_bits
          = some EFF_LONG_WORDLIST_ENTROPY
        ∧ (Passphrase.load_internal_wordlist p).wordlist = some EFF_LONG_WORDLIST) := by
  refine ⟨?_, ?_, rfl, rfl⟩
  · cases v <;> simp [Passphrase.set_wordlist]
  · cases file with
    | none => simp [Passphrase.import_words_from_file]
    | some lines =>
        cases dice with
        | false => simp [Passphrase.import_words_from_file]
        | true =>
            cases hr : Passphrase.read_words_from_diceware lines with
            | ok ws => simp [Passphrase.import_words_from_file, hr]
            | error e => simp [Passphrase.import_words_from_file, hr]

theorem C8_witness :
    ((Passphrase.set_wordlist Passphrase.init_fields (.VList [.PStr "alpha"])).2 = .ok ()
      ∧ (Passphrase.set_wordlist Passphrase.init_fields
          (.VList [.PStr "alpha"])).1.wordlist_entropy_bits = none)
    ∧ ((Passphrase.import_words_from_file Passphrase.init_fields
          (some ["alpha", "bravo"]) false).2 = .ok ()
      ∧ (Passphrase.import_words_from_file Passphrase.init_fields
          (some ["alpha", "bravo"]) false).1.wordlist_entropy_bits = none) :=
  ⟨⟨by decide,
    (C8_cache_invalidation Passphrase.init_fields (.VList [.PStr "alpha"])
      (some ["alpha", "bravo"]) false).1 (by decide)⟩,
   ⟨by decide,
    (C8_cache_invalidation Passphrase.init_fields (.VList [.PStr "alpha"])
      (some ["alpha", "bravo"]) false).2.1 (by decide)⟩⟩

/-- Claim C4, as stated, is false at a concrete input: the
`password_use_lowercase` setter accepts a value of the wrong type (a string)
without any error, coercing it to its truthiness, instead of failing with an
`InvalidInput`-class error. -/
theorem C4_counterexample :
    (Passphrase.set_password_use_lowercase Passphrase.init_fields (.VStr "not a bool")).2 = .ok ()
    ∧ (Passphrase.set_password_use_lowercase Passphrase.init_fields
        (.VStr "not a bool")).1.password_use_lowercase = true := by
  constructor
  · decide
  · decide

/-- Claim C4 (amended): every settable field except the four
`password_use_*` flags validates the assigned value on assignment — the
numeric fields (`entropy_bits_req`, `randnum_min`, `randnum_max`, `amount_w`,
`amount_n`, `passwordlen`) reject wrong types and negative values, and
`separator` and `wordlist` reject wrong types — failing with an
`InvalidInput`-class error and leaving the state unchanged; the four
`password_use_*` flags instead accept any value, coercing it to its
truthiness, and never fail. -/
theorem C4_setter_validation (p : Passphrase.State) (v : PyVal) (n : Int) (q : ℚ) :
    (¬ v.isinstance_num → Passphrase.set_entropy_bits_req p v
        = (p, .error (.typeError "entropy_bits_req can only be int or float")))
    ∧ (q < 0 → Passphrase.set_entropy_bits_req p (.VFloat q)
        = (p, .error (.valueError "entropy_bits_req should be greater than 0")))
    ∧ (¬ v.isinstance_int → Passphrase.set_randnum_min p v
        = (p, .error (.typeError "randnum_min can only be int")))
    ∧ (n < 0 → Passphrase.set_randnum_min p (.VInt n)
        = (p, .error (.valueError "randnum_min should be greater than 0")))
    ∧ (¬ v.isinstance_int → Passphrase.set_randnum_max p v
        = (p, .error (.typeError "randnum_max can only be int")))
    ∧ (n < 0 → Passphrase.set_randnum_max p (.VInt n)
        = (p, .error (.valueError "randnum_max should be greater than 0")))
    ∧ (¬ v.isinstance_int → Passphrase.set_amount_w p v
        = (p, .error (.typeError "amount_w can only be int")))
    ∧ (n < 0 → Passphrase.set_amount_w p (.VInt n)
        = (p, .error (.valueError "amount_w should be greater than 0")))
    ∧ (¬ v.isinstance_int → Passphrase.set_amount_n p v
        = (p, .error (.typeError "amount_n can only be int")))
    ∧ (n < 0 → Passphrase.set_amount_n p (.VInt n)
        = (p, .error (.valueError "amount_n should be greater than 0")))
    ∧ (¬ v.isinstance_int → Passphrase.set_passwordlen p v
        = (p, .error (.typeError "passwordlen can only be int")))
    ∧ (n < 0 → Passphrase.set_passwordlen p (.VInt n)
        = (p, .error (.valueError "passwordlen should be greater than 0")))
    ∧ (¬ v.isinstance_str → Passphrase.set_separator p v
        = (p, .error (.typeError "separator can only be string")))
    ∧ (¬ v.isinstance_list → Passphrase.set_wordlist p v
        = (p, .error (.typeError "wordlist can only be list or tuple")))
    ∧ Passphrase.set_password_use_lowercase p v
        = ({p with password_use_lowercase := v.truthy}, .ok ())
    ∧ Passphrase.set_password_use_uppercase p v
        = ({p with password_use_uppercase := v.truthy}, .ok ())
    ∧ Passphrase.set_password_use_digits p v
        = ({p with password_use_digits := v.truthy}, .ok ())
    ∧ Passphrase.set_password_use_punctuation p v
        = ({p with password_use_punctuation := v.truthy}, .ok ()) := by
  refine ⟨?_, ?_, ?_, ?_, ?_, ?_, ?_, ?_, ?_, ?_, ?_, ?_, ?_, ?_, rfl, rfl, rfl, rfl⟩
  · intro h
    cases v <;> simp_all [Passphrase.set_entropy_bits_req, PyVal.isinstance_num]
  · intro h
    simp [Passphrase.set_entropy_bits_req, PyVal.isinstance_num, PyVal.toRat, h]
  · intro h
    cases v <;> simp_all [Passphrase.set_randnum_min, PyVal.isinstance_int]
  · intro h
    simp [Passphrase.set_randnum_min, PyVal.isinstance_int, PyVal.toInt, h]
  · intro h
    cases v <;> simp_all [Passphrase.set_randnum_max, PyVal.isinstance_int]
  · intro h
    simp [Passphrase.set_randnum_max, PyVal.isinstance_int, PyVal.toInt, h]
  · intro h
    cases v <;> simp_all [Passphrase.set_amount_w, PyVal.isinstance_int]
  · intro h
    simp [Passphrase.set_amount_w, PyVal.isinstance_int, PyVal.toInt, h]
  · intro h
    cases v <;> simp_all [Passphrase.set_amount_n, PyVal.isinstance_int]
  · intro h
    simp [Passphrase.set_amount_n, PyVal.isinstance_int, PyVal.toInt, h]
  · intro h
    cases v <;> simp_all [Passphrase.set_passwordlen, PyVal.isinstance_int]
  · intro h
    simp [Passphrase.set_passwordlen, PyVal.isinstance_int, PyVal.toInt, h]
  · intro h
    cases v <;> simp_all [Passphrase.set_separator, PyVal.isinstance_str]
  · intro h
    cases v <;> simp_all [Passphrase.set_wordlist, PyVal.isinstance_list]

theorem C4_witness :
    ¬ (PyVal.VStr "x").isinstance_int
    ∧ Passphrase.set_amount_w Passphrase.init_fields (.VStr "x")
        = (Passphrase.init_fields, .error (.typeError "amount_w can only be int")) :=
  ⟨by decide,
    (C4_setter_validation Passphrase.init_fields (.VStr "x") 0 0).2.2.2.2.2.2.1 (by decide)⟩

/-- Claim C6, as stated, is false at a concrete input: on a state whose
entropy cache is set (after loading the internal wordlist), importing a
diceware file whose second line has no second column fails with `IndexError`,
but the failed call has already cleared the cached entropy value — the
configuration is not the same after the failed call as before it. -/
theorem C6_counterexample :
    isErr (Passphrase.import_words_from_file
        (Passphrase.load_internal_wordlist Passphrase.init_fields)
        (some ["11111 abandon", "badline"]) true).2 = true
    ∧ (Passphrase.import_words_from_file
        (Passphrase.load_internal_wordlist Passphrase.init_fields)
        (some ["11111 abandon", "badline"]) true).1.wordlist_entropy_bits
      ≠ (Passphrase.load_internal_wordlist Passphrase.init_fields).wordlist_entropy_bits := by
  constructor
  · decide
  · decide

/-- Claim C6 (amended): a failed setter, `generate`, or `generate_password`
call leaves the entire state unchanged (validation precedes any mutation),
and `import_words_from_file` leaves the state unchanged when the file check
itself fails; however `import_words_from_file` clears the cached wordlist
entropy *before* parsing, so a parse failure (malformed diceware line) leaves
that mutation behind.  The entropy queries read the configuration only and
return no state at all. -/
theorem C6_failure_leaves_state (p : Passphrase.State) (v : PyVal) (draws : Nat → Nat)
    (nums : Nat → Int) (uc : Option PyVal) (dice : Bool) :
    (isErr (Passphrase.set_entropy_bits_req p v).2 = true → (Passphrase.set_entropy_bits_req p v).1 = p)
    ∧ (isErr (Passphrase.set_randnum_min p v).2 = true → (Passphrase.set_randnum_min p v).1 = p)
    ∧ (isErr (Passphrase.set_randnum_max p v).2 = true → (Passphrase.set_randnum_max p v).1 = p)
    ∧ (isErr (Passphrase.set_amount_w p v).2 = true → (Passphrase.set_amount_w p v).1 = p)
    ∧ (isErr (Passphrase.set_amount_n p v).2 = true → (Passphrase.set_amount_n p v).1 = p)
    ∧ (isErr (Passphrase.set_passwordlen p v).2 = true → (Passphrase.set_passwordlen p v).1 = p)
    ∧ (isErr (Passphrase.set_separator p v).2 = true → (Passphrase.set_separator p v).1 = p)
    ∧ (isErr (Passphrase.set_wordlist p v).2 = true → (Passphrase.set_wordlist p v).1 = p)
    ∧ (isErr (Passphrase.set_password_use_lowercase p v).2 = true →
        (Passphrase.set_password_use_lowercase p v).1 = p)
    ∧ (isErr (Passphrase.set_password_use_uppercase p v).2 = true →
        (Passphrase.set_password_use_uppercase p v).1 = p)
    ∧ (isErr (Passphrase.set_password_use_digits p v).2 = true →
        (Passphrase.set_password_use_digits p v).1 = p)
    ∧ (isErr (Passphrase.set_password_use_punctuation p v).2 = true →
        (Passphrase.set_password_use_punctuation p v).1 = p)
    ∧ (isErr (Passphrase.generate p draws nums uc).2 = true →
        (Passphrase.generate p draws nums uc).1 = p)
    ∧ (isErr (Passphrase.generate_password p draws).2 = true →
        (Passphrase.generate_password p draws).1 = p)
    ∧ (Passphrase.import_words_from_file p none dice
        = (p, .error (.fileNotFoundError "Input file does not exists, is not valid or is empty"))) := by
  refine ⟨?_, ?_, ?_, ?_, ?_, ?_, ?_, ?_, ?_, ?_, ?_, ?_, ?_, ?_, rfl⟩
  · intro h
    unfold Passphrase.set_entropy_bits_req at h ⊢
    split_ifs at h ⊢ <;> simp_all [isErr]
  · intro h
    unfold Passphrase.set_randnum_min at h ⊢
    split_ifs at h ⊢ <;> simp_all [isErr]
  · intro h
    unfold Passphrase.set_randnum_max at h ⊢
    split_ifs at h ⊢ <;> simp_all [isErr]
  · intro h
    unfold Passphrase.set_amount_w at h ⊢
    split_ifs at h ⊢ <;> simp_all [isErr]
  · intro h
    unfold Passphrase.set_amount_n at h ⊢
    split_ifs at h ⊢ <;> simp_all [isErr]
  · intro h
    unfold Passphrase.set_passwordlen at h ⊢
    split_ifs at h ⊢ <;> simp_all [isErr]
  · intro h
    cases v <;> simp_all [Passphrase.set_separator, isErr]
  · intro h
    cases v <;> simp_all [Passphrase.set_wordlist, isErr]
  · intro h
    simp_all [Passphrase.set_password_use_lowercase, isErr]
  · intro h
    simp_all [Passphrase.set_password_use_uppercase, isErr]
  · intro h
    simp_all [Passphrase.set_password_use_digits, isErr]
  · intro h
    simp_all [Passphrase.set_password_use_punctuation, isErr]
  · intro h
    unfold Passphrase.generate at h ⊢
    split_ifs at h ⊢
    · rfl
    · rfl
    · generalize hm : (List.range (p.amount_w.getD 0).toNat).mapM
        (fun i => ((p.wordlist.getD []).getD (draws i % (p.wordlist.getD []).length) .PNone).lower)
        = m at h ⊢
      cases m with
      | error e => rfl
      | ok ws => simp [isErr] at h
  · intro h
    unfold Passphrase.generate_password at h ⊢
    dsimp only at h ⊢
    split_ifs at h ⊢
    · rfl
    · simp [isErr] at h

theorem C6_witness :
    isErr (Passphrase.set_amount_w Passphrase.init_fields (.VStr "x")).2 = true
    ∧ (Passphrase.set_amount_w Passphrase.init_fields (.VStr "x")).1 = Passphrase.init_fields :=
  ⟨by decide,
    (C6_failure_leaves_state Passphrase.init_fields (.VStr "x") (fun _ => 0) (fun _ => 0)
      none false).2.2.2.1 (by decide)⟩
